import Mathlib

/-!
Verification development for the resilient asynchronous RPC core of the
freya_v2 repository: the circuit breaker and retry primitives in
src/core/circuit_breaker.py and src/core/retry.py, the message-bus dispatch
loop in src/core/message_bus.py, the tool-invocation gateway in
src/services/mcp_gateway/mcp_gateway.py, and the reasoning-engine tool loop
in src/services/llm/llm_engine.py.

Python floats that only ever enter comparisons and closed-form arithmetic
(timestamps, delays, timeouts) are modelled as rationals.  Exceptions are
modelled with explicit Except values or outcome inductives.  I/O effects
(logging, the Redis transport, the Ollama client, MCP stdio sessions) are
abstracted into oracle parameters; the control flow around them is
translated statement by statement from the source.
-/

/- ===================================================================
   Section 1: Circuit breaker (src/core/circuit_breaker.py)
   =================================================================== -/

/-- The three states of src/core/circuit_breaker.py, class CircuitState. -/
inductive CircuitState where
  | closed
  | open_
  | halfOpen
deriving DecidableEq, Repr

/-- State carried by a CircuitBreaker instance (constructor of class
CircuitBreaker, circuit_breaker.py lines 53-77).  Times are rationals
standing for the time.time() floats. -/
structure CircuitBreaker where
  failure_threshold : Nat
  recovery_timeout : ℚ
  state : CircuitState
  failure_count : Nat
  last_failure_time : Option ℚ
  success_count : Nat
deriving DecidableEq, Repr

/-- A freshly constructed breaker: CLOSED, zero counters, no failure time. -/
def CircuitBreaker.init (failure_threshold : Nat) (recovery_timeout : ℚ) :
    CircuitBreaker :=
  { failure_threshold := failure_threshold
    recovery_timeout := recovery_timeout
    state := CircuitState.closed
    failure_count := 0
    last_failure_time := none
    success_count := 0 }

/-- CircuitBreaker.is_open (circuit_breaker.py lines 89-92). -/
def CircuitBreaker.is_open (cb : CircuitBreaker) : Bool :=
  cb.state = CircuitState.open_

/-- CircuitBreaker._should_attempt_reset (circuit_breaker.py lines 94-98):
true when a last failure time exists and at least recovery_timeout has
elapsed since it.  The current clock reading is passed explicitly. -/
def CircuitBreaker.should_attempt_reset (cb : CircuitBreaker) (now : ℚ) : Bool :=
  match cb.last_failure_time with
  | none => false
  | some t => cb.recovery_timeout ≤ now - t

/-- CircuitBreaker._on_success (circuit_breaker.py lines 100-110). -/
def CircuitBreaker.on_success (cb : CircuitBreaker) : CircuitBreaker :=
  if cb.state = CircuitState.halfOpen then
    if cb.success_count + 1 ≥ 2 then
      { cb with state := CircuitState.closed, failure_count := 0, success_count := 0 }
    else
      { cb with success_count := cb.success_count + 1 }
  else if cb.state = CircuitState.closed then
    { cb with failure_count := 0 }
  else cb

/-- CircuitBreaker._on_failure (circuit_breaker.py lines 112-126): bump the
failure counter, record the failure time, zero the success counter; then
reopen from HALF_OPEN, or open when the counter reaches the threshold. -/
def CircuitBreaker.on_failure (cb : CircuitBreaker) (now : ℚ) : CircuitBreaker :=
  let cb1 : CircuitBreaker :=
    { cb with failure_count := cb.failure_count + 1
              last_failure_time := some now
              success_count := 0 }
  if cb1.state = CircuitState.halfOpen then
    { cb1 with state := CircuitState.open_ }
  else if cb1.failure_count ≥ cb1.failure_threshold then
    { cb1 with state := CircuitState.open_ }
  else cb1

/-- Outcome of one invocation of the wrapped operation: it returns, or it
raises an exception that either matches expected_exception (counted by the
breaker) or does not (propagates without touching the breaker). -/
inductive Outcome where
  | ok
  | err (expected : Bool)
deriving DecidableEq, Repr

/-- What one call through the protect wrapper did. -/
inductive ProtectResult where
  | rejected
  | invoked (o : Outcome)
deriving DecidableEq, Repr

/-- The try/except body of the wrapper in CircuitBreaker.protect
(circuit_breaker.py lines 149-156): run the operation, then update the
breaker through _on_success or _on_failure; an unexpected exception
propagates with no bookkeeping. -/
def CircuitBreaker.attempt (cb : CircuitBreaker) (now : ℚ) (o : Outcome) :
    ProtectResult × CircuitBreaker :=
  match o with
  | Outcome.ok => (ProtectResult.invoked Outcome.ok, cb.on_success)
  | Outcome.err true => (ProtectResult.invoked (Outcome.err true), cb.on_failure now)
  | Outcome.err false => (ProtectResult.invoked (Outcome.err false), cb)

/-- One call through the wrapper produced by CircuitBreaker.protect
(circuit_breaker.py lines 137-156): while OPEN, either move to HALF_OPEN
when the recovery timeout has elapsed and then attempt the call, or reject
with CircuitBreakerOpenError; otherwise attempt the call directly. -/
def CircuitBreaker.protectCall (cb : CircuitBreaker) (now : ℚ) (o : Outcome) :
    ProtectResult × CircuitBreaker :=
  if cb.state = CircuitState.open_ then
    if cb.should_attempt_reset now then
      CircuitBreaker.attempt { cb with state := CircuitState.halfOpen } now o
    else
      (ProtectResult.rejected, cb)
  else
    CircuitBreaker.attempt cb now o

/-- Run a sequence of protected calls; each element pairs the clock reading
at the call with the outcome the wrapped operation would produce. -/
def CircuitBreaker.runCalls (cb : CircuitBreaker) (calls : List (ℚ × Outcome)) :
    CircuitBreaker :=
  calls.foldl (fun c p => (c.protectCall p.1 p.2).2) cb

/-- A list of calls that all fail with an expected exception, at the given
clock readings. -/
def failCalls (ts : List ℚ) : List (ℚ × Outcome) :=
  ts.map (fun t => (t, Outcome.err true))

lemma protectCall_closed (cb : CircuitBreaker) (now : ℚ) (o : Outcome)
    (h : cb.state = CircuitState.closed) :
    cb.protectCall now o = cb.attempt now o := by
  simp [CircuitBreaker.protectCall, h]

lemma protectCall_halfOpen (cb : CircuitBreaker) (now : ℚ) (o : Outcome)
    (h : cb.state = CircuitState.halfOpen) :
    cb.protectCall now o = cb.attempt now o := by
  simp [CircuitBreaker.protectCall, h]

lemma on_failure_closed_stays (cb : CircuitBreaker) (now : ℚ)
    (h : cb.state = CircuitState.closed)
    (hlt : cb.failure_count + 1 < cb.failure_threshold) :
    cb.on_failure now =
      { cb with failure_count := cb.failure_count + 1
                last_failure_time := some now
                success_count := 0 } := by
  simp [CircuitBreaker.on_failure, h, Nat.not_le.mpr hlt]

lemma on_failure_closed_opens (cb : CircuitBreaker) (now : ℚ)
    (h : cb.state = CircuitState.closed)
    (hge : cb.failure_threshold ≤ cb.failure_count + 1) :
    cb.on_failure now =
      { cb with state := CircuitState.open_
                failure_count := cb.failure_count + 1
                last_failure_time := some now
                success_count := 0 } := by
  simp [CircuitBreaker.on_failure, h, hge]

/-- Running consecutive expected failures from CLOSED while staying strictly
under the threshold leaves the breaker CLOSED, counting every failure. -/
lemma runCalls_fail_closed (ts : List ℚ) :
    ∀ cb : CircuitBreaker, cb.state = CircuitState.closed →
    cb.failure_count + ts.length < cb.failure_threshold →
    (cb.runCalls (failCalls ts)).state = CircuitState.closed ∧
    (cb.runCalls (failCalls ts)).failure_count = cb.failure_count + ts.length ∧
    (cb.runCalls (failCalls ts)).failure_threshold = cb.failure_threshold := by
  induction ts with
  | nil =>
    intro cb h _
    simp [CircuitBreaker.runCalls, failCalls, h]
  | cons t rest ih =>
    intro cb h hlt
    have hlt1 : cb.failure_count + 1 < cb.failure_threshold := by
      have := hlt
      simp [List.length_cons] at this
      omega
    have hstep : cb.protectCall t (Outcome.err true) =
        (ProtectResult.invoked (Outcome.err true), cb.on_failure t) := by
      rw [protectCall_closed cb t _ h]
      rfl
    have hof := on_failure_closed_stays cb t h hlt1
    have hrun : cb.runCalls (failCalls (t :: rest)) =
        (cb.on_failure t).runCalls (failCalls rest) := by
      simp [CircuitBreaker.runCalls, failCalls, hstep]
    rw [hrun]
    have := ih (cb.on_failure t)
      (by rw [hof]; exact h)
      (by rw [hof]; simp [List.length_cons] at hlt ⊢; omega)
    rcases this with ⟨h1, h2, h3⟩
    refine ⟨h1, ?_, ?_⟩
    · rw [h2, hof]; simp [List.length_cons]; omega
    · rw [h3, hof]

/-- Running from CLOSED exactly enough consecutive expected failures to
reach the threshold leaves the breaker OPEN. -/
lemma runCalls_fail_opens (ts : List ℚ) :
    ∀ cb : CircuitBreaker, cb.state = CircuitState.closed →
    cb.failure_count + ts.length = cb.failure_threshold →
    ts ≠ [] →
    (cb.runCalls (failCalls ts)).state = CircuitState.open_ := by
  induction ts with
  | nil => intro cb _ _ hne; exact absurd rfl hne
  | cons t rest ih =>
    intro cb h heq _
    have hstep : cb.protectCall t (Outcome.err true) =
        (ProtectResult.invoked (Outcome.err true), cb.on_failure t) := by
      rw [protectCall_closed cb t _ h]
      rfl
    have hrun : cb.runCalls (failCalls (t :: rest)) =
        (cb.on_failure t).runCalls (failCalls rest) := by
      simp [CircuitBreaker.runCalls, failCalls, hstep]
    rw [hrun]
    cases rest with
    | nil =>
      have hge : cb.failure_threshold ≤ cb.failure_count + 1 := by
        simp [List.length_cons] at heq; omega
      have hof := on_failure_closed_opens cb t h hge
      rw [hof]
      simp [CircuitBreaker.runCalls, failCalls]
    | cons t2 rest2 =>
      have hlt1 : cb.failure_count + 1 < cb.failure_threshold := by
        simp [List.length_cons] at heq; omega
      have hof := on_failure_closed_stays cb t h hlt1
      apply ih (cb.on_failure t)
      · rw [hof]; exact h
      · rw [hof]; simp [List.length_cons] at heq ⊢; omega
      · simp

lemma attempt_fst (cb : CircuitBreaker) (now : ℚ) (o : Outcome) :
    (cb.attempt now o).1 = ProtectResult.invoked o := by
  cases o with
  | ok => rfl
  | err e => cases e <;> rfl

/-- C2 (confirmed): the CircuitBreaker.protect state machine law.  From a
fresh breaker, exactly failure_threshold consecutive expected failures
leave the state OPEN while any shorter run leaves it CLOSED; while OPEN
with the recovery timeout not yet elapsed a call is rejected with
CircuitBreakerOpenError and the breaker is untouched; once recovery_timeout
has elapsed since the recorded failure, the next call runs against the
breaker moved to HALF_OPEN and the wrapped operation is invoked; two
consecutive successes in HALF_OPEN close the breaker with both counters
reset; any expected failure in HALF_OPEN reopens it and updates the
recorded failure time. -/
theorem circuit_breaker_protect_law (n : Nat) (rt : ℚ) (hn : 0 < n) :
    (∀ ts : List ℚ, ts.length = n →
      ((CircuitBreaker.init n rt).runCalls (failCalls ts)).state = CircuitState.open_) ∧
    (∀ ts : List ℚ, ts.length < n →
      ((CircuitBreaker.init n rt).runCalls (failCalls ts)).state = CircuitState.closed) ∧
    (∀ (cb : CircuitBreaker) (now t : ℚ) (o : Outcome),
      cb.state = CircuitState.open_ → cb.last_failure_time = some t →
      now - t < cb.recovery_timeout →
      cb.protectCall now o = (ProtectResult.rejected, cb)) ∧
    (∀ (cb : CircuitBreaker) (now t : ℚ) (o : Outcome),
      cb.state = CircuitState.open_ → cb.last_failure_time = some t →
      cb.recovery_timeout ≤ now - t →
      (cb.protectCall now o).1 = ProtectResult.invoked o ∧
      cb.protectCall now o =
        CircuitBreaker.attempt { cb with state := CircuitState.halfOpen } now o) ∧
    (∀ (cb : CircuitBreaker) (now1 now2 : ℚ),
      cb.state = CircuitState.halfOpen → cb.success_count = 0 →
      ((cb.protectCall now1 Outcome.ok).2.protectCall now2 Outcome.ok).2.state =
          CircuitState.closed ∧
      ((cb.protectCall now1 Outcome.ok).2.protectCall now2 Outcome.ok).2.failure_count = 0 ∧
      ((cb.protectCall now1 Outcome.ok).2.protectCall now2 Outcome.ok).2.success_count = 0) ∧
    (∀ (cb : CircuitBreaker) (now : ℚ), cb.state = CircuitState.halfOpen →
      (cb.protectCall now (Outcome.err true)).2.state = CircuitState.open_ ∧
      (cb.protectCall now (Outcome.err true)).2.last_failure_time = some now) := by
  refine ⟨?_, ?_, ?_, ?_, ?_, ?_⟩
  · intro ts hlen
    apply runCalls_fail_opens ts (CircuitBreaker.init n rt) rfl
    · simpa [CircuitBreaker.init] using hlen
    · intro hnil
      rw [hnil] at hlen
      simp at hlen
      omega
  · intro ts hlen
    exact (runCalls_fail_closed ts (CircuitBreaker.init n rt) rfl
      (by simpa [CircuitBreaker.init] using hlen)).1
  · intro cb now t o hs hl hlt
    simp [CircuitBreaker.protectCall, CircuitBreaker.should_attempt_reset, hs, hl,
      not_le.mpr hlt]
  · intro cb now t o hs hl hge
    have hreset : cb.should_attempt_reset now = true := by
      simp [CircuitBreaker.should_attempt_reset, hl, hge]
    constructor
    · simp [CircuitBreaker.protectCall, hs, hreset, attempt_fst]
    · simp [CircuitBreaker.protectCall, hs, hreset]
  · intro cb now1 now2 hs hsc
    simp [CircuitBreaker.protectCall, CircuitBreaker.attempt, CircuitBreaker.on_success,
      hs, hsc]
  · intro cb now hs
    simp [CircuitBreaker.protectCall, CircuitBreaker.attempt, CircuitBreaker.on_failure, hs]

/-- Witness for circuit_breaker_protect_law at threshold 2 and recovery
timeout 30: two failures open the breaker, one leaves it closed, and an
open breaker with a fresh failure at time 0 rejects a call made at time
10. -/
theorem circuit_breaker_protect_law_witness :
    ((CircuitBreaker.init 2 30).runCalls (failCalls [0, 1])).state = CircuitState.open_ ∧
    ((CircuitBreaker.init 2 30).runCalls (failCalls [0])).state = CircuitState.closed ∧
    (((CircuitBreaker.init 2 30).runCalls (failCalls [0, 1])).protectCall 10 Outcome.ok =
      (ProtectResult.rejected, (CircuitBreaker.init 2 30).runCalls (failCalls [0, 1]))) := by
  refine ⟨(circuit_breaker_protect_law 2 30 (by decide)).1 [0, 1] rfl,
    (circuit_breaker_protect_law 2 30 (by decide)).2.1 [0] (by decide), ?_⟩
  exact (circuit_breaker_protect_law 2 30 (by decide)).2.2.1
    ((CircuitBreaker.init 2 30).runCalls (failCalls [0, 1])) 10 1 Outcome.ok
    (by decide) (by decide)
    (by
      have h30 : ((CircuitBreaker.init 2 30).runCalls (failCalls [0, 1])).recovery_timeout
          = 30 := by decide
      rw [h30]; norm_num)

/- ===================================================================
   Section 2: the reasoning engine model-call guard
   (src/services/llm/llm_engine.py, _call_ollama_with_retry)
   =================================================================== -/

/-- Result of one attempt inside LLMEngine._call_ollama_with_retry. -/
inductive OllamaCallResult where
  | rejected
  | attempted (ok : Bool)
deriving DecidableEq, Repr

/-- The body of LLMEngine._call_ollama_with_retry (llm_engine.py lines
411-432) for a single attempt: if self.ollama_breaker.is_open, raise
CircuitBreakerOpenError without calling the model at all; otherwise call
client.chat (success given by the oracle chatOk) and record the outcome in
the breaker through _on_success or _on_failure.  Note the guard consults
is_open only; it never calls _should_attempt_reset and never moves the
breaker to HALF_OPEN the way CircuitBreaker.protect does. -/
def call_ollama_guard (cb : CircuitBreaker) (now : ℚ) (chatOk : Bool) :
    OllamaCallResult × CircuitBreaker :=
  if cb.is_open then (OllamaCallResult.rejected, cb)
  else if chatOk then (OllamaCallResult.attempted true, cb.on_success)
  else (OllamaCallResult.attempted false, cb.on_failure now)

/-- The Ollama breaker constructed in llm_engine.py lines 76-81
(failure_threshold 5, recovery_timeout 30) after it has opened, with its
last failure recorded at time 0. -/
def openOllamaBreaker : CircuitBreaker :=
  { failure_threshold := 5
    recovery_timeout := 30
    state := CircuitState.open_
    failure_count := 5
    last_failure_time := some 0
    success_count := 0 }

/-- C3 (code bug): at time 100, far past the 30-second recovery timeout of
the breaker opened at time 0, _should_attempt_reset already answers true,
yet the guard in LLMEngine._call_ollama_with_retry still rejects every
model call with CircuitBreakerOpenError and leaves the breaker OPEN, so the
upstream call is never attempted and the breaker never reaches HALF_OPEN on
this path.  By contrast, a call routed through CircuitBreaker.protect at
the same instant would move the breaker out of OPEN and invoke the
operation. -/
theorem ollama_call_rejected_after_recovery_timeout :
    openOllamaBreaker.should_attempt_reset 100 = true ∧
    (∀ chatOk : Bool, call_ollama_guard openOllamaBreaker 100 chatOk =
      (OllamaCallResult.rejected, openOllamaBreaker)) ∧
    (openOllamaBreaker.protectCall 100 Outcome.ok).1 = ProtectResult.invoked Outcome.ok ∧
    (openOllamaBreaker.protectCall 100 Outcome.ok).2.state = CircuitState.halfOpen := by
  refine ⟨?_, ?_, ?_, ?_⟩
  · norm_num [CircuitBreaker.should_attempt_reset, openOllamaBreaker]
  · intro chatOk
    simp [call_ollama_guard, CircuitBreaker.is_open, openOllamaBreaker]
  · norm_num [CircuitBreaker.protectCall, CircuitBreaker.should_attempt_reset,
      CircuitBreaker.attempt, openOllamaBreaker]
  · norm_num [CircuitBreaker.protectCall, CircuitBreaker.should_attempt_reset,
      CircuitBreaker.attempt, CircuitBreaker.on_success, openOllamaBreaker]

/- ===================================================================
   Section 3: retry with exponential backoff (src/core/retry.py)
   =================================================================== -/

/-- The exception kinds this core distinguishes: CircuitBreakerOpenError,
the three kinds listed in the engine retry decorator (ollama.ResponseError,
asyncio.TimeoutError, ConnectionError), and everything else.  None of the
five Python classes is a subclass of another. -/
inductive ExnKind where
  | circuitOpen
  | responseError
  | timeoutError
  | connectionError
  | otherError
deriving DecidableEq, Repr

/-- What one invocation of the wrapped operation does. -/
inductive AttemptOutcome (α : Type) where
  | ok (v : α)
  | raises (e : ExnKind)

/-- What a full run of the retry wrapper returns to its caller. -/
inductive RetryResult (α : Type) where
  | ok (v : α)
  | retryExhausted (last : ExnKind)
  | propagated (e : ExnKind)

/-- The delay computation of retry.py lines 77-81:
min(base_delay * exponential_base ** attempt, max_delay). -/
def backoffDelay (base_delay max_delay exponential_base : ℚ) (attempt : Nat) : ℚ :=
  min (base_delay * exponential_base ^ attempt) max_delay

/-- The jitter of retry.py lines 84-85: delay = delay * (0.5 + random());
r stands for the draw of random.random(), so 0 ≤ r < 1. -/
def jitteredDelay (delay r : ℚ) : ℚ := delay * (1/2 + r)

/-- Observable trace of one run of the retry wrapper: the value or error
returned, the sleeps performed, and how many times the operation ran. -/
structure RetryTrace (α : Type) where
  result : RetryResult α
  sleeps : List ℚ
  attemptsMade : Nat

/-- The for-loop of retry_with_backoff (retry.py lines 57-101).  remaining
is max_retries minus the current attempt index; attempts gives the outcome
of the operation on each attempt and rs the random draw consumed by the
jitter of that attempt.  An exception outside the configured tuple is not
caught by the except clause and propagates; on the last attempt a matching
exception becomes RetryExhaustedError; otherwise the loop sleeps the
(possibly jittered) backoff delay and tries again. -/
def retryGo {α : Type} (retryOn : ExnKind → Bool) (jitter : Bool) (bd md eb : ℚ)
    (attempts : Nat → AttemptOutcome α) (rs : Nat → ℚ) :
    Nat → Nat → RetryTrace α
  | remaining, attempt =>
    match attempts attempt with
    | AttemptOutcome.ok v => ⟨RetryResult.ok v, [], 1⟩
    | AttemptOutcome.raises e =>
      if retryOn e then
        match remaining with
        | 0 => ⟨RetryResult.retryExhausted e, [], 1⟩
        | r + 1 =>
          let d0 := backoffDelay bd md eb attempt
          let d := if jitter then jitteredDelay d0 (rs attempt) else d0
          let rest := retryGo retryOn jitter bd md eb attempts rs r (attempt + 1)
          ⟨rest.result, d :: rest.sleeps, rest.attemptsMade + 1⟩
      else ⟨RetryResult.propagated e, [], 1⟩

/-- A full run of the decorator produced by retry_with_backoff: attempts
0 through max_retries. -/
def retry_with_backoff {α : Type} (retryOn : ExnKind → Bool) (jitter : Bool)
    (bd md eb : ℚ) (max_retries : Nat) (attempts : Nat → AttemptOutcome α)
    (rs : Nat → ℚ) : RetryTrace α :=
  retryGo retryOn jitter bd md eb attempts rs max_retries 0

/-- The exceptions tuple of the decorator on LLMEngine._call_ollama_with_retry
(llm_engine.py lines 383-387): ollama.ResponseError, asyncio.TimeoutError,
ConnectionError.  CircuitBreakerOpenError is not among them and subclasses
none of them. -/
def ollama_retry_exceptions : ExnKind → Bool
  | ExnKind.responseError => true
  | ExnKind.timeoutError => true
  | ExnKind.connectionError => true
  | _ => false

/-- C4 counterexample: 3/4 is a valid draw of random.random(), and with the
engine retry parameters the first sleep of a run whose attempts keep
failing with ConnectionError is 5/4 seconds while its unjittered value is
1 second, so the actual delay exceeds 1.0 times the unjittered delay: the
code multiplies by 0.5 + random(), a factor in [0.5, 1.5), not [0.5, 1.0]. -/
theorem retry_jitter_range_counterexample :
    (0 : ℚ) ≤ 3/4 ∧ (3/4 : ℚ) < 1 ∧
    (retry_with_backoff (α := Unit) ollama_retry_exceptions true 1 60 2 3
        (fun _ => AttemptOutcome.raises ExnKind.connectionError)
        (fun _ => 3/4)).sleeps.head? = some (5/4) ∧
    backoffDelay 1 60 2 0 = 1 ∧ ¬ ((5 : ℚ)/4 ≤ 1 * 1) := by
  refine ⟨by norm_num, by norm_num, ?_, by norm_num [backoffDelay], by norm_num⟩
  simp only [retry_with_backoff, retryGo, ollama_retry_exceptions, if_true]
  norm_num [jitteredDelay, backoffDelay]

lemma jitter_bounds (d r : ℚ) (hd : 0 < d) (h0 : 0 ≤ r) (h1 : r < 1) :
    (1/2) * d ≤ jitteredDelay d r ∧ jitteredDelay d r < (3/2) * d := by
  unfold jitteredDelay
  constructor
  · nlinarith
  · nlinarith

/-- C4 amended (corrected): with the engine parameters (max_retries 3,
base_delay 1, exponential_base 2, max_delay 60) the delays computed before
jitter for the three retries are exactly 1, 2 and 4 seconds, and for every
draw r of random.random() (0 ≤ r < 1) each jittered delay lies in
[0.5, 1.5) times its unjittered value — the code factor is 0.5 + r, so the
upper bound 1.0 of the original claim does not hold. -/
theorem retry_backoff_delays (r : ℚ) (h0 : 0 ≤ r) (h1 : r < 1) :
    backoffDelay 1 60 2 0 = 1 ∧ backoffDelay 1 60 2 1 = 2 ∧ backoffDelay 1 60 2 2 = 4 ∧
    (∀ attempt : Nat, attempt < 3 →
      (1/2) * backoffDelay 1 60 2 attempt ≤ jitteredDelay (backoffDelay 1 60 2 attempt) r ∧
      jitteredDelay (backoffDelay 1 60 2 attempt) r < (3/2) * backoffDelay 1 60 2 attempt) ∧
    (retry_with_backoff (α := Unit) ollama_retry_exceptions true 1 60 2 3
        (fun _ => AttemptOutcome.raises ExnKind.connectionError) (fun _ => r)).sleeps =
      [jitteredDelay 1 r, jitteredDelay 2 r, jitteredDelay 4 r] := by
  have hb0 : backoffDelay 1 60 2 0 = 1 := by norm_num [backoffDelay]
  have hb1 : backoffDelay 1 60 2 1 = 2 := by norm_num [backoffDelay]
  have hb2 : backoffDelay 1 60 2 2 = 4 := by norm_num [backoffDelay]
  refine ⟨hb0, hb1, hb2, ?_, ?_⟩
  · intro attempt ha
    interval_cases attempt
    · rw [hb0]; exact jitter_bounds 1 r (by norm_num) h0 h1
    · rw [hb1]; exact jitter_bounds 2 r (by norm_num) h0 h1
    · rw [hb2]; exact jitter_bounds 4 r (by norm_num) h0 h1
  · simp only [retry_with_backoff, retryGo, ollama_retry_exceptions, if_true]
    rw [hb0, hb1, hb2]

/-- Witness for retry_backoff_delays at the draw r = 0. -/
theorem retry_backoff_delays_witness :
    backoffDelay 1 60 2 0 = 1 ∧
    ((1/2 : ℚ) * backoffDelay 1 60 2 0 ≤ jitteredDelay (backoffDelay 1 60 2 0) 0 ∧
      jitteredDelay (backoffDelay 1 60 2 0) 0 < (3/2 : ℚ) * backoffDelay 1 60 2 0) ∧
    (retry_with_backoff (α := Unit) ollama_retry_exceptions true 1 60 2 3
        (fun _ => AttemptOutcome.raises ExnKind.connectionError) (fun _ => 0)).sleeps =
      [jitteredDelay 1 0, jitteredDelay 2 0, jitteredDelay 4 0] :=
  ⟨(retry_backoff_delays 0 (by norm_num) (by norm_num)).1,
   (retry_backoff_delays 0 (by norm_num) (by norm_num)).2.2.2.1 0 (by norm_num),
   (retry_backoff_delays 0 (by norm_num) (by norm_num)).2.2.2.2⟩

/-- C5 (confirmed): when the wrapped operation raises
CircuitBreakerOpenError under the engine exceptions tuple, the except
clause of retry_with_backoff does not match, so the error propagates to the
caller at once: exactly one attempt is made and no backoff sleep occurs. -/
theorem circuit_open_not_retried {α : Type} (jitter : Bool) (bd md eb : ℚ)
    (max_retries : Nat) (attempts : Nat → AttemptOutcome α) (rs : Nat → ℚ)
    (h : attempts 0 = AttemptOutcome.raises ExnKind.circuitOpen) :
    retry_with_backoff ollama_retry_exceptions jitter bd md eb max_retries attempts rs =
      ⟨RetryResult.propagated ExnKind.circuitOpen, [], 1⟩ := by
  unfold retry_with_backoff
  rw [retryGo, h]
  rfl

/-- Witness for circuit_open_not_retried: a run whose operation always
raises CircuitBreakerOpenError, with the engine parameters. -/
theorem circuit_open_not_retried_witness :
    retry_with_backoff (α := Unit) ollama_retry_exceptions true 1 60 2 3
        (fun _ => AttemptOutcome.raises ExnKind.circuitOpen) (fun _ => 0) =
      ⟨RetryResult.propagated ExnKind.circuitOpen, [], 1⟩ :=
  circuit_open_not_retried true 1 60 2 3 _ _ rfl

/- ===================================================================
   Section 4: message bus dispatch (src/core/message_bus.py)
   =================================================================== -/

/-- A subscriber callback as it behaves on one incoming message: it maps
the observable service state either to a new state or to a raised
exception, modelled as Except.error carrying the exception text. -/
structure BusCallback (σ : Type) where
  run : σ → Except String σ

/-- The per-message callback loop of MessageBus.start (message_bus.py lines
314-325): each callback call sits in its own try/except, so an exception is
logged and the loop advances to the next callback with the state as the
failed callback left it (here: unchanged, callbacks being modelled as
atomic).  Returns the state after the loop and the number of callbacks
invoked. -/
def runCallbacks {σ : Type} : List (BusCallback σ) → σ → σ × Nat
  | [], s => (s, 0)
  | cb :: rest, s =>
    let s1 := match cb.run s with
      | Except.ok t => t
      | Except.error _ => s
    let p := runCallbacks rest s1
    (p.1, p.2 + 1)

/-- One message as the listener sees it: its channel, and whether
json.loads succeeds on its payload. -/
structure BusMessage where
  channel : String
  valid : Bool

/-- The self.subscribers lookup in MessageBus.start (lines 315-316): the
callbacks registered for a channel, or nothing. -/
def subscribersFor {σ : Type} (table : List (String × List (BusCallback σ)))
    (ch : String) : List (BusCallback σ) :=
  match table.lookup ch with
  | some cbs => cbs
  | none => []

/-- Processing of one delivered message in MessageBus.start (lines
300-325): a payload that fails to decode is logged and the loop continues
with the next message; otherwise every callback registered for the channel
is run. -/
def handle_message {σ : Type} (table : List (String × List (BusCallback σ)))
    (s : σ) (m : BusMessage) : σ :=
  if m.valid then (runCallbacks (subscribersFor table m.channel) s).1 else s

/-- The async-for listener loop of MessageBus.start over a finite stream of
delivered messages; returns the final state and the number of messages
processed. -/
def listenLoop {σ : Type} (table : List (String × List (BusCallback σ))) :
    List BusMessage → σ → σ × Nat
  | [], s => (s, 0)
  | m :: ms, s =>
    let p := listenLoop table ms (handle_message table s m)
    (p.1, p.2 + 1)

lemma runCallbacks_count {σ : Type} (cbs : List (BusCallback σ)) :
    ∀ s : σ, (runCallbacks cbs s).2 = cbs.length := by
  induction cbs with
  | nil => intro s; rfl
  | cons cb rest ih =>
    intro s
    simp [runCallbacks, ih]

lemma listenLoop_count {σ : Type} (table : List (String × List (BusCallback σ)))
    (msgs : List BusMessage) :
    ∀ s : σ, (listenLoop table msgs s).2 = msgs.length := by
  induction msgs with
  | nil => intro s; rfl
  | cons m ms ih =>
    intro s
    simp [listenLoop, ih]

/-- C10 (confirmed): even when one of the callbacks registered for a
channel raises on every state, dispatching a message on that channel still
invokes every registered callback (the per-callback try/except swallows the
exception), and the listener loop goes on to process every subsequent
delivered message rather than terminating. -/
theorem bus_callback_isolation {σ : Type}
    (table : List (String × List (BusCallback σ))) (msgs : List BusMessage)
    (s0 s : σ) (ch : String)
    (_hraise : ∃ cb ∈ subscribersFor table ch, ∀ st : σ, (cb.run st).isOk = false) :
    (runCallbacks (subscribersFor table ch) s).2 = (subscribersFor table ch).length ∧
    (listenLoop table msgs s0).2 = msgs.length :=
  ⟨runCallbacks_count _ s, listenLoop_count table msgs s0⟩

/-- A callback that always raises, for the witness below. -/
def alwaysRaises : BusCallback Nat :=
  ⟨fun _ => Except.error "boom"⟩

/-- A callback that increments the state, for the witness below. -/
def bumpState : BusCallback Nat :=
  ⟨fun n => Except.ok (n + 1)⟩

/-- Witness for bus_callback_isolation: a channel with a raising callback
followed by a normal one still invokes both, and both of two delivered
messages are processed. -/
theorem bus_callback_isolation_witness :
    (runCallbacks (subscribersFor [("test.channel", [alwaysRaises, bumpState])]
        "test.channel") 0).2 =
      (subscribersFor [("test.channel", [alwaysRaises, bumpState])] "test.channel").length ∧
    (listenLoop [("test.channel", [alwaysRaises, bumpState])]
        [⟨"test.channel", true⟩, ⟨"test.channel", false⟩] 0).2 = 2 :=
  bus_callback_isolation [("test.channel", [alwaysRaises, bumpState])]
    [⟨"test.channel", true⟩, ⟨"test.channel", false⟩] 0 0 "test.channel"
    ⟨alwaysRaises, by simp [subscribersFor, List.lookup], fun st => rfl⟩

/- ===================================================================
   Section 5: bus topics of the tool-call path
   =================================================================== -/

/-- Channel on which LLMEngine._execute_tool_call publishes tool requests
(llm_engine.py line 625). -/
def llm_tool_call_topic : String := "mcp.tool_call"

/-- Channel the MCP gateway subscribes to for tool execution requests
(mcp_gateway.py line 344). -/
def mcp_tool_execute_topic : String := "mcp.tool.execute"

/-- Channel the gateway publishes tool results on (mcp_gateway.py lines 550
and 576). -/
def mcp_tool_result_topic : String := "mcp.tool.result"

/-- Channel the gateway publishes its merged registry on (mcp_gateway.py
line 492). -/
def mcp_tool_registry_topic : String := "mcp.tool.registry"

/-- The channels LLMEngine.start subscribes to (llm_engine.py lines
197-203); there is no subscription for tool results at all. -/
def llm_engine_subscriptions : List String :=
  ["stt.transcription", "gui.user_message", "mcp.tool_registry"]

/-- Key under which the engine sends its correlation id (llm_engine.py line
626). -/
def llm_request_id_key : String := "call_id"

/-- Key under which the gateway reads the correlation id (mcp_gateway.py
line 510). -/
def mcp_request_id_key : String := "request_id"

/-- C1 (code bug): the engine publishes tool-call requests on a channel the
gateway does not subscribe to, so a bus carrying exactly the gateway
subscription dispatches the request to zero callbacks; moreover the engine
never subscribes to the channel the gateway publishes results on (nor even
to the channel the registry is published on), and the two sides disagree on
the correlation-id key.  The round trip the claim describes therefore never
happens: no result message is produced and the engine times out. -/
theorem tool_call_request_never_reaches_gateway {σ : Type}
    (gatewayCb : BusCallback σ) (s : σ) :
    llm_tool_call_topic ≠ mcp_tool_execute_topic ∧
    (runCallbacks (subscribersFor [(mcp_tool_execute_topic, [gatewayCb])]
        llm_tool_call_topic) s).2 = 0 ∧
    mcp_tool_result_topic ∉ llm_engine_subscriptions ∧
    mcp_tool_registry_topic ∉ llm_engine_subscriptions ∧
    llm_request_id_key ≠ mcp_request_id_key := by
  have hne : (llm_tool_call_topic == mcp_tool_execute_topic) = false := by decide
  refine ⟨by decide, ?_, by decide, by decide, by decide⟩
  simp [subscribersFor, List.lookup, hne, runCallbacks]

/- ===================================================================
   Section 6: LLMEngine._execute_tool_call (llm_engine.py lines 599-653)
   =================================================================== -/

/-- The observable steps _execute_tool_call can take, in order: publishing
on a channel, registering a waiting slot for a request id in a
pending-result table, checking the table for the id, and sleeping between
checks.  The registration step is part of the alphabet because the claim
mentions it; the translation below shows the function never performs it. -/
inductive EngineAction where
  | publishMsg (channel : String)
  | registerSlot (call_id : String)
  | checkTable (call_id : String)
  | sleepDelay
deriving DecidableEq, Repr

/-- The poll iterations of the while-loop in _execute_tool_call (lines
635-644): each iteration checks self._pending_tool_results for the id and
then sleeps 0.1 s. -/
def poll_actions (call_id : String) : Nat → List EngineAction
  | 0 => []
  | k + 1 =>
    EngineAction.checkTable call_id :: EngineAction.sleepDelay ::
      poll_actions call_id k

/-- The action trace of LLMEngine._execute_tool_call: publish the request
on mcp.tool_call (line 625), then poll the shared dict.  With the 30 s
timeout and the 0.1 s sleep, up to 300 polls happen; the number of polls is
kept as a parameter.  Nothing is written into the table before the publish:
the function only generates the uuid, publishes, and polls. -/
def execute_tool_call_actions (call_id : String) (polls : Nat) : List EngineAction :=
  EngineAction.publishMsg llm_tool_call_topic :: poll_actions call_id polls

lemma registerSlot_not_in_poll_actions (call_id c2 : String) (k : Nat) :
    EngineAction.registerSlot c2 ∉ poll_actions call_id k := by
  induction k with
  | zero => simp [poll_actions]
  | succ n ih => simp [poll_actions, ih]

/-- C6 counterexample: for the concrete tool call with request id r1, the
trace of _execute_tool_call starts with the bus publish and contains no
registration of a waiting slot anywhere, let alone before the publish. -/
theorem no_slot_registered_before_publish :
    (execute_tool_call_actions "r1" 300).head? =
      some (EngineAction.publishMsg llm_tool_call_topic) ∧
    EngineAction.registerSlot "r1" ∉ execute_tool_call_actions "r1" 300 := by
  constructor
  · rfl
  · simp [execute_tool_call_actions]
    exact registerSlot_not_in_poll_actions "r1" "r1" 300

/-- The value side of the poll loop (lines 631-646): present k tells
whether call_id sits in self._pending_tool_results at the k-th check; the
loop runs while elapsed < 30 s with a 0.1 s sleep per iteration, hence 300
checks, and returns the index of the first successful check, or none when
the deadline passes (upon which the function raises the timeout
LLMEngineError). -/
def poll_for_result (present : Nat → Bool) : Nat → Nat → Option Nat
  | _, 0 => none
  | k, fuel + 1 => if present k then some k else poll_for_result present (k + 1) fuel

/-- The wait performed by _execute_tool_call after its publish. -/
def execute_tool_call_wait (present : Nat → Bool) : Option Nat :=
  poll_for_result present 0 300

lemma poll_for_result_finds (arrival : Nat) :
    ∀ k fuel : Nat, k ≤ arrival → arrival < k + fuel →
    poll_for_result (fun i => decide (arrival ≤ i)) k fuel = some arrival := by
  intro k fuel
  induction fuel generalizing k with
  | zero => intro _ h; omega
  | succ n ih =>
    intro hk hlt
    by_cases h : arrival ≤ k
    · have : k = arrival := le_antisymm hk h
      subst this
      simp [poll_for_result]
    · have hk2 : k + 1 ≤ arrival := by omega
      simp [poll_for_result, h]
      exact ih (k + 1) hk2 (by omega)

lemma poll_for_result_none (k fuel : Nat) :
    poll_for_result (fun _ => false) k fuel = none := by
  induction fuel generalizing k with
  | zero => rfl
  | succ n ih => simp [poll_for_result, ih]

/-- C6 amended (corrected): _execute_tool_call registers nothing before
publishing — it publishes the request first and only then polls the shared
_pending_tool_results dict, checking every 0.1 s across the 30 s deadline.
Because the wait is a poll over a table rather than a pre-registered slot,
a result inserted at any check index before the deadline (here: present
from the arrival tick onwards) is still retrieved, so an early arrival is
not lost; if no result ever appears, the wait ends with none and the
function raises its timeout error. -/
theorem execute_tool_call_publish_then_poll (arrival : Nat) (h : arrival < 300) :
    (∀ cid : String, ∀ polls : Nat,
      (execute_tool_call_actions cid polls).head? =
        some (EngineAction.publishMsg llm_tool_call_topic) ∧
      EngineAction.registerSlot cid ∉ execute_tool_call_actions cid polls) ∧
    execute_tool_call_wait (fun i => decide (arrival ≤ i)) = some arrival ∧
    execute_tool_call_wait (fun _ => false) = none := by
  refine ⟨?_, ?_, ?_⟩
  · intro cid polls
    constructor
    · rfl
    · simp [execute_tool_call_actions]
      exact registerSlot_not_in_poll_actions cid cid polls
  · exact poll_for_result_finds arrival 0 300 (Nat.zero_le _) (by omega)
  · exact poll_for_result_none 0 300

/-- Witness for execute_tool_call_publish_then_poll with the result
arriving at the fifth check. -/
theorem execute_tool_call_publish_then_poll_witness :
    ((execute_tool_call_actions "r1" 300).head? =
        some (EngineAction.publishMsg llm_tool_call_topic) ∧
      EngineAction.registerSlot "r1" ∉ execute_tool_call_actions "r1" 300) ∧
    execute_tool_call_wait (fun i => decide (5 ≤ i)) = some 5 :=
  ⟨(execute_tool_call_publish_then_poll 5 (by norm_num)).1 "r1" 300,
   (execute_tool_call_publish_then_poll 5 (by norm_num)).2.1⟩

/- ===================================================================
   Section 7: gateway tool execution
   (src/services/mcp_gateway/mcp_gateway.py, _handle_tool_execution)
   =================================================================== -/

/-- A tool descriptor as built by MCPServerConnection.discover_tools
(mcp_gateway.py lines 135-142); inputSchema is opaque here. -/
structure ToolDescriptor where
  name : String
  description : String
  inputSchema : String
  server : String
deriving DecidableEq, Repr

/-- A tool execution request as read by _handle_tool_execution (lines
498-517): data.get("request_id") and data.get("tool_name"); the arguments
are opaque to the control flow modelled here.  A Python falsy tool_name
(missing or empty) is rejected, so the empty string is treated below like
a missing name. -/
structure ToolRequestMsg where
  request_id : Option String
  tool_name : Option String
deriving DecidableEq, Repr

/-- A result message as published on mcp.tool.result (lines 541-548 and
568-575); the success message carries no error field and the failure
message no result. -/
structure ToolResultMsg where
  request_id : String
  tool_name : String
  success : Bool
  result : Option String
  error : Option String
deriving DecidableEq, Repr

/-- Outcome of MCPServerConnection.call_tool for one server and tool name:
the session returns a value, or the call raises MCPGatewayError (all
failure modes of call_tool are wrapped into that type, lines 195-202). -/
inductive InvokeOutcome where
  | ok (v : String)
  | fail (e : String)
deriving DecidableEq, Repr

/-- The try-block of _handle_tool_execution (lines 512-557): validate
tool_name, look it up in the merged registry, require the owning server to
be connected, invoke it, and build the success result.  Every failure mode
raises MCPGatewayError, modelled as Except.error with the message text. -/
def handle_tool_execution_try (registry : List (String × ToolDescriptor))
    (connected : String → Bool) (invoke : String → String → InvokeOutcome)
    (data : ToolRequestMsg) (request_id : String) :
    Except String ToolResultMsg :=
  match data.tool_name with
  | none => Except.error "Missing tool_name in request"
  | some tool_name =>
    if tool_name = "" then Except.error "Missing tool_name in request"
    else
      match registry.lookup tool_name with
      | none => Except.error ("Tool " ++ tool_name ++ " not found in registry")
      | some tool_info =>
        if connected tool_info.server then
          match invoke tool_info.server tool_name with
          | InvokeOutcome.ok v =>
            Except.ok { request_id := request_id, tool_name := tool_name,
                        success := true, result := some v, error := none }
          | InvokeOutcome.fail e =>
            Except.error ("Tool execution failed for " ++ tool_name ++ ": " ++ e)
        else Except.error ("Server " ++ tool_info.server ++ " not connected")

/-- The whole of _handle_tool_execution (lines 498-580): request_id
defaults to unknown, the try-block runs, and an MCPGatewayError is
converted into a published failure result carrying the request id and the
error text — nothing is re-raised towards the bus.  Returns the list of
result messages published on mcp.tool.result. -/
def handle_tool_execution (registry : List (String × ToolDescriptor))
    (connected : String → Bool) (invoke : String → String → InvokeOutcome)
    (data : ToolRequestMsg) : List ToolResultMsg :=
  let request_id := data.request_id.getD "unknown"
  match handle_tool_execution_try registry connected invoke data request_id with
  | Except.ok msg => [msg]
  | Except.error e =>
    [{ request_id := request_id, tool_name := data.tool_name.getD "unknown",
       success := false, result := none, error := some e }]

/-- C7 (confirmed): a request whose tool_name is absent from the merged
registry makes the gateway publish exactly one result message, with
success false, the original request_id, and a non-empty error string; the
handler returns normally (the MCPGatewayError raised inside the try-block
is converted into the published failure, never propagated). -/
theorem gateway_unknown_tool_publishes_failure
    (registry : List (String × ToolDescriptor)) (connected : String → Bool)
    (invoke : String → String → InvokeOutcome) (data : ToolRequestMsg)
    (t r : String) (ht : data.tool_name = some t) (hr : data.request_id = some r)
    (hne : t ≠ "") (habsent : registry.lookup t = none) :
    handle_tool_execution registry connected invoke data =
      [{ request_id := r, tool_name := t, success := false, result := none,
         error := some ("Tool " ++ t ++ " not found in registry") }] ∧
    ("Tool " ++ t ++ " not found in registry") ≠ "" := by
  constructor
  · simp [handle_tool_execution, handle_tool_execution_try, ht, hr, hne, habsent]
  · intro hcontra
    have h2 := congrArg String.data hcontra
    simp [String.data_append] at h2

/-- Witness for gateway_unknown_tool_publishes_failure: an empty registry
and a request for get_weather with request id r1. -/
theorem gateway_unknown_tool_publishes_failure_witness :
    handle_tool_execution [] (fun _ => true) (fun _ _ => InvokeOutcome.ok "")
        ⟨some "r1", some "get_weather"⟩ =
      [{ request_id := "r1", tool_name := "get_weather", success := false,
         result := none,
         error := some ("Tool " ++ "get_weather" ++ " not found in registry") }] ∧
    ("Tool " ++ "get_weather" ++ " not found in registry") ≠ "" :=
  gateway_unknown_tool_publishes_failure [] (fun _ => true)
    (fun _ _ => InvokeOutcome.ok "") ⟨some "r1", some "get_weather"⟩
    "get_weather" "r1" rfl rfl (by decide) rfl

/- ===================================================================
   Section 8: gateway startup (mcp_gateway.py, _connect_all_servers,
   _discover_all_tools, health_check)
   =================================================================== -/

/-- State of one configured MCP server connection as created by
MCPGateway.initialize (lines 300-306): fresh connections have connected
false.  connectOk abstracts whether the stdio transport and session
initialization succeed, discoverOk whether list_tools succeeds, and
toolList the catalogue the provider reports. -/
structure MCPServerConnection where
  name : String
  connectOk : Bool
  discoverOk : Bool
  toolList : List (String × ToolDescriptor)
  connected : Bool
deriving DecidableEq, Repr

/-- MCPServerConnection.connect (lines 82-113): establish the session and
set _connected, or raise MCPGatewayError. -/
def MCPServerConnection.connect (s : MCPServerConnection) :
    Except String MCPServerConnection :=
  if s.connectOk then Except.ok { s with connected := true }
  else Except.error ("Connection to " ++ s.name ++ " failed")

/-- MCPServerConnection.is_connected (lines 219-221). -/
def MCPServerConnection.is_connected (s : MCPServerConnection) : Bool :=
  s.connected

/-- MCPServerConnection.discover_tools (lines 115-153): the catalogue, or
MCPGatewayError. -/
def MCPServerConnection.discover_tools (s : MCPServerConnection) :
    Except String (List (String × ToolDescriptor)) :=
  if s.discoverOk then Except.ok s.toolList
  else Except.error ("Tool discovery failed for " ++ s.name)

/-- The per-server loop body of MCPGateway._connect_all_servers (lines
443-451): try connect; an MCPGatewayError is logged and the server is left
as it was, continuing with the other servers. -/
def connectResult (s : MCPServerConnection) : MCPServerConnection :=
  match s.connect with
  | Except.ok s2 => s2
  | Except.error _ => s

/-- MCPGateway._connect_all_servers over the configured servers. -/
def connect_all_servers (servers : List MCPServerConnection) :
    List MCPServerConnection :=
  servers.map connectResult

/-- The per-server loop body of MCPGateway._discover_all_tools (lines
462-472): disconnected servers are skipped; a discovery failure is logged
and skipped; otherwise the discovered tools are merged into the registry by
dict.update. -/
def dictInsert (reg : List (String × ToolDescriptor)) (k : String)
    (v : ToolDescriptor) : List (String × ToolDescriptor) :=
  match reg with
  | [] => [(k, v)]
  | (k2, v2) :: rest =>
    if k2 = k then (k, v) :: rest else (k2, v2) :: dictInsert rest k v

/-- self.tool_registry.update(tools) (line 469): key-by-key assignment,
last write wins. -/
def dictUpdate (reg kvs : List (String × ToolDescriptor)) :
    List (String × ToolDescriptor) :=
  kvs.foldl (fun r kv => dictInsert r kv.1 kv.2) reg

def discoverStep (reg : List (String × ToolDescriptor))
    (s : MCPServerConnection) : List (String × ToolDescriptor) :=
  if s.is_connected then
    match s.discover_tools with
    | Except.ok tools => dictUpdate reg tools
    | Except.error _ => reg
  else reg

/-- MCPGateway._discover_all_tools: the registry is reset and rebuilt from
every connected server. -/
def discover_all_tools (servers : List MCPServerConnection) :
    List (String × ToolDescriptor) :=
  servers.foldl discoverStep []

/-- State of the gateway relevant to startup and health. -/
structure GatewayState where
  servers : List MCPServerConnection
  tool_registry : List (String × ToolDescriptor)
  healthy : Bool
  running : Bool

/-- MCPGateway.start (lines 321-357) after a successful initialize with
mcp_enabled: connect all servers (continuing past individual failures),
discover all tools, subscribe to mcp.tool.execute, and mark the service
started.  initialize already set _healthy (line 309) and _mark_started
sets _running (base_service.py line 290). -/
def gateway_start (servers : List MCPServerConnection) : GatewayState :=
  let connectedServers := connect_all_servers servers
  { servers := connectedServers
    tool_registry := discover_all_tools connectedServers
    healthy := true
    running := true }

/-- MCPGateway.health_check (lines 392-409): the BaseService check
(_healthy and _running, base_service.py line 154), then unhealthy when
servers are configured but none is connected. -/
def health_check (g : GatewayState) : Bool :=
  (g.healthy && g.running) &&
    !((((g.servers.filter fun s => s.is_connected).length) == 0) &&
      decide (0 < g.servers.length))

lemma connectResult_fields (s : MCPServerConnection) :
    (connectResult s).is_connected = (s.connectOk || s.connected) ∧
    (connectResult s).discoverOk = s.discoverOk ∧
    (connectResult s).toolList = s.toolList ∧
    (connectResult s).connectOk = s.connectOk := by
  by_cases h : s.connectOk = true
  · simp [connectResult, MCPServerConnection.connect, MCPServerConnection.is_connected, h]
  · simp [connectResult, MCPServerConnection.connect, MCPServerConnection.is_connected,
      Bool.eq_false_iff.mpr h]

lemma dictInsert_lookup_isSome (k : String) (v : ToolDescriptor) (n : String) :
    ∀ reg : List (String × ToolDescriptor),
    ((dictInsert reg k v).lookup n).isSome ↔ ((reg.lookup n).isSome ∨ n = k) := by
  intro reg
  induction reg with
  | nil =>
    by_cases h : n = k
    · simp [dictInsert, List.lookup, h]
    · have hb : (n == k) = false := beq_eq_false_iff_ne.mpr h
      simp [dictInsert, List.lookup, hb, h]
  | cons q rest ih =>
    obtain ⟨k2, v2⟩ := q
    by_cases h1 : k2 = k
    · subst h1
      by_cases h2 : n = k2
      · simp [dictInsert, List.lookup, h2]
      · have hb : (n == k2) = false := beq_eq_false_iff_ne.mpr h2
        simp [dictInsert, List.lookup, hb, h2]
    · by_cases h2 : n = k2
      · subst h2
        simp [dictInsert, h1, List.lookup]
      · have hb : (n == k2) = false := beq_eq_false_iff_ne.mpr h2
        simp [dictInsert, h1, List.lookup, hb, ih]

lemma dictUpdate_lookup_isSome (n : String) :
    ∀ kvs reg : List (String × ToolDescriptor),
    ((dictUpdate reg kvs).lookup n).isSome ↔
      ((reg.lookup n).isSome ∨ ∃ p ∈ kvs, p.1 = n) := by
  intro kvs
  induction kvs with
  | nil => intro reg; simp [dictUpdate]
  | cons q rest ih =>
    intro reg
    obtain ⟨k, v⟩ := q
    have hstep : dictUpdate reg ((k, v) :: rest) =
        dictUpdate (dictInsert reg k v) rest := rfl
    rw [hstep, ih, dictInsert_lookup_isSome]
    simp [List.mem_cons]
    constructor
    · rintro ((h | h) | h)
      · exact Or.inl h
      · exact Or.inr (Or.inl h.symm)
      · exact Or.inr (Or.inr h)
    · rintro (h | h | h)
      · exact Or.inl (Or.inl h)
      · exact Or.inl (Or.inr h.symm)
      · exact Or.inr h

lemma mem_dictInsert (p : String × ToolDescriptor) (k : String)
    (v : ToolDescriptor) :
    ∀ reg, p ∈ dictInsert reg k v → p ∈ reg ∨ p = (k, v) := by
  intro reg
  induction reg with
  | nil => simp [dictInsert]
  | cons q rest ih =>
    obtain ⟨k2, v2⟩ := q
    by_cases h : k2 = k
    · subst h
      simp [dictInsert, List.mem_cons]
      tauto
    · simp [dictInsert, h, List.mem_cons]
      intro hp
      rcases hp with h1 | h2
      · exact Or.inl (Or.inl h1)
      · rcases ih h2 with h3 | h4
        · exact Or.inl (Or.inr h3)
        · exact Or.inr h4

lemma mem_dictUpdate (p : String × ToolDescriptor) :
    ∀ kvs reg, p ∈ dictUpdate reg kvs → p ∈ reg ∨ p ∈ kvs := by
  intro kvs
  induction kvs with
  | nil => intro reg h; exact Or.inl h
  | cons q rest ih =>
    intro reg h
    obtain ⟨k, v⟩ := q
    have hstep : dictUpdate reg ((k, v) :: rest) =
        dictUpdate (dictInsert reg k v) rest := rfl
    rw [hstep] at h
    rcases ih (dictInsert reg k v) h with h1 | h2
    · rcases mem_dictInsert p k v reg h1 with h3 | h4
      · exact Or.inl h3
      · exact Or.inr (by simp [List.mem_cons, h4])
    · exact Or.inr (List.mem_cons_of_mem _ h2)

lemma discover_foldl_lookup (n : String) :
    ∀ (servers : List MCPServerConnection) (reg : List (String × ToolDescriptor)),
    ((servers.foldl discoverStep reg).lookup n).isSome ↔
      ((reg.lookup n).isSome ∨
        ∃ s ∈ servers, s.is_connected = true ∧ s.discoverOk = true ∧
          ∃ p ∈ s.toolList, p.1 = n) := by
  intro servers
  induction servers with
  | nil => intro reg; simp
  | cons s rest ih =>
    intro reg
    rw [List.foldl_cons, ih]
    by_cases hc : s.is_connected = true
    · by_cases hd : s.discoverOk = true
      · have hstep : discoverStep reg s = dictUpdate reg s.toolList := by
          simp [discoverStep, hc, MCPServerConnection.discover_tools, hd]
        rw [hstep, dictUpdate_lookup_isSome]
        simp [List.mem_cons, hc, hd]
        tauto
      · have hstep : discoverStep reg s = reg := by
          simp [discoverStep, hc, MCPServerConnection.discover_tools,
            Bool.eq_false_iff.mpr hd]
        rw [hstep]
        simp [List.mem_cons, Bool.eq_false_iff.mpr hd]
    · have hstep : discoverStep reg s = reg := by
        simp [discoverStep, Bool.eq_false_iff.mpr hc]
      rw [hstep]
      simp [List.mem_cons, Bool.eq_false_iff.mpr hc]

lemma discover_foldl_mem (p : String × ToolDescriptor) :
    ∀ (servers : List MCPServerConnection) (reg : List (String × ToolDescriptor)),
    p ∈ servers.foldl discoverStep reg →
      p ∈ reg ∨ ∃ s ∈ servers, s.is_connected = true ∧ p ∈ s.toolList := by
  intro servers
  induction servers with
  | nil => intro reg h; exact Or.inl h
  | cons s rest ih =>
    intro reg h
    rw [List.foldl_cons] at h
    rcases ih (discoverStep reg s) h with h1 | h2
    · by_cases hc : s.is_connected = true
      · by_cases hd : s.discoverOk = true
        · have hstep : discoverStep reg s = dictUpdate reg s.toolList := by
            simp [discoverStep, hc, MCPServerConnection.discover_tools, hd]
          rw [hstep] at h1
          rcases mem_dictUpdate p s.toolList reg h1 with h3 | h4
          · exact Or.inl h3
          · exact Or.inr ⟨s, List.mem_cons_self s rest, hc, h4⟩
        · have hstep : discoverStep reg s = reg := by
            simp [discoverStep, hc, MCPServerConnection.discover_tools,
              Bool.eq_false_iff.mpr hd]
          rw [hstep] at h1
          exact Or.inl h1
      · have hstep : discoverStep reg s = reg := by
          simp [discoverStep, Bool.eq_false_iff.mpr hc]
        rw [hstep] at h1
        exact Or.inl h1
    · rcases h2 with ⟨s2, hs2, hcon, hmem⟩
      exact Or.inr ⟨s2, List.mem_cons_of_mem _ hs2, hcon, hmem⟩

/-- C8 (confirmed): starting the gateway over fresh configured servers of
which at least one connects, startup completes (the translation of the
connect and discovery loops is total: every per-server failure is caught),
the health check answers true, a tool name is in the merged registry
exactly when some successfully connecting server discovered it, and every
registry entry comes from a successfully connecting server. -/
theorem gateway_partial_failure_startup (servers : List MCPServerConnection)
    (hfresh : ∀ s ∈ servers, s.connected = false)
    (hdisc : ∀ s ∈ servers, s.discoverOk = true)
    (hsome : ∃ s ∈ servers, s.connectOk = true) :
    health_check (gateway_start servers) = true ∧
    (∀ n : String, (((gateway_start servers).tool_registry).lookup n).isSome ↔
      ∃ s ∈ servers, s.connectOk = true ∧ ∃ p ∈ s.toolList, p.1 = n) ∧
    (∀ p ∈ (gateway_start servers).tool_registry,
      ∃ s ∈ servers, s.connectOk = true ∧ p ∈ s.toolList) := by
  refine ⟨?_, ?_, ?_⟩
  · obtain ⟨s, hs, hok⟩ := hsome
    have hmem : connectResult s ∈ connect_all_servers servers :=
      List.mem_map_of_mem connectResult hs
    have hconn : (connectResult s).is_connected = true := by
      rw [(connectResult_fields s).1, hok]
      simp
    have hmemf : connectResult s ∈
        ((connect_all_servers servers).filter fun x => x.is_connected) :=
      List.mem_filter.mpr ⟨hmem, hconn⟩
    have hpos : 0 <
        ((connect_all_servers servers).filter fun x => x.is_connected).length :=
      List.length_pos.mpr (List.ne_nil_of_mem hmemf)
    have hbeq : ((((connect_all_servers servers).filter
        fun x => x.is_connected).length) == 0) = false := by
      rw [beq_eq_false_iff_ne]
      omega
    simp [health_check, gateway_start, hbeq]
  · intro n
    have hreg : (gateway_start servers).tool_registry =
        (connect_all_servers servers).foldl discoverStep [] := rfl
    rw [hreg, discover_foldl_lookup]
    simp only [List.lookup_nil, Option.isSome_none, Bool.false_eq_true, false_or]
    constructor
    · rintro ⟨s2, hs2, hcon, hdok, hp⟩
      rcases List.mem_map.mp hs2 with ⟨s, hs, rfl⟩
      refine ⟨s, hs, ?_, ?_⟩
      · have h1 := (connectResult_fields s).1
        rw [hcon] at h1
        have h2 := hfresh s hs
        cases hok : s.connectOk with
        | true => rfl
        | false => rw [hok, h2] at h1; simp at h1
      · rwa [(connectResult_fields s).2.2.1] at hp
    · rintro ⟨s, hs, hok, hp⟩
      refine ⟨connectResult s, List.mem_map_of_mem connectResult hs, ?_, ?_, ?_⟩
      · rw [(connectResult_fields s).1, hok]; simp
      · rw [(connectResult_fields s).2.1]; exact hdisc s hs
      · rwa [(connectResult_fields s).2.2.1]
  · intro p hp
    have hreg : (gateway_start servers).tool_registry =
        (connect_all_servers servers).foldl discoverStep [] := rfl
    rw [hreg] at hp
    rcases discover_foldl_mem p (connect_all_servers servers) [] hp with h1 | h2
    · simp at h1
    · rcases h2 with ⟨s2, hs2, hcon, hmem⟩
      rcases List.mem_map.mp hs2 with ⟨s, hs, rfl⟩
      refine ⟨s, hs, ?_, ?_⟩
      · have h1 := (connectResult_fields s).1
        rw [hcon] at h1
        have h2 := hfresh s hs
        cases hok : s.connectOk with
        | true => rfl
        | false => rw [hok, h2] at h1; simp at h1
      · rwa [(connectResult_fields s).2.2.1] at hmem

/-- A small concrete deployment for the witness below: three configured
providers, the middle one failing to connect. -/
def demoServers : List MCPServerConnection :=
  [⟨"filesystem", true, true, [("read_file", ⟨"read_file", "", "", "filesystem"⟩)], false⟩,
   ⟨"weather", false, true, [("get_weather", ⟨"get_weather", "", "", "weather"⟩)], false⟩,
   ⟨"search", true, true, [("web_search", ⟨"web_search", "", "", "search"⟩)], false⟩]

/-- Witness for gateway_partial_failure_startup on demoServers: the
gateway is healthy and the registry key get_weather is characterized by
the connecting servers (here: absent, since only the weather provider
offers it and it failed to connect). -/
theorem gateway_partial_failure_startup_witness :
    health_check (gateway_start demoServers) = true ∧
    ((((gateway_start demoServers).tool_registry).lookup "get_weather").isSome ↔
      ∃ s ∈ demoServers, s.connectOk = true ∧
        ∃ p ∈ s.toolList, p.1 = "get_weather") :=
  ⟨(gateway_partial_failure_startup demoServers (by decide) (by decide)
      (by decide)).1,
   (gateway_partial_failure_startup demoServers (by decide) (by decide)
      (by decide)).2.1 "get_weather"⟩

/- ===================================================================
   Section 9: the reasoning-engine tool loop
   (llm_engine.py, _generate_response, lines 474-541)
   =================================================================== -/

/-- One response of client.chat inside the tool loop: either a final
message with content, or a message requesting tool calls by name. -/
inductive ModelResponse where
  | final (content : String)
  | toolCalls (names : List String)

def ModelResponse.hasToolCalls : ModelResponse → Bool
  | ModelResponse.final _ => false
  | ModelResponse.toolCalls _ => true

/-- The fixed fallback text the else-branch substitutes (llm_engine.py line
541; the source text writes the first contraction as one word). -/
def fallback_response : String :=
  "I apologize, but I am having trouble completing that request. Could you try rephrasing it?"

/-- max_tool_iterations (llm_engine.py line 475). -/
def max_tool_iterations : Nat := 5

/-- The while/else loop of _generate_response: the fuel argument is
max_tool_iterations minus the iterations already made.  A response without
tool_calls ends the loop with its content; a tool-call response executes
the requested tools (their results feed later responses, which the respond
oracle accounts for, indexed by the 1-based iteration counter) and
iterates; exhausting the bound reaches the while-else branch, which
substitutes the fallback text.  Returns the response text and the number of
model calls made. -/
def generate_response_loop (respond : Nat → ModelResponse) :
    Nat → Nat → String × Nat
  | _, 0 => (fallback_response, 0)
  | iteration, r + 1 =>
    match respond (iteration + 1) with
    | ModelResponse.final content => (content, 1)
    | ModelResponse.toolCalls _ =>
      let p := generate_response_loop respond (iteration + 1) r
      (p.1, p.2 + 1)

/-- One user turn of _generate_response, starting at iteration 0 with the
full budget of 5 iterations. -/
def generate_response (respond : Nat → ModelResponse) : String × Nat :=
  generate_response_loop respond 0 max_tool_iterations

lemma generate_loop_count_le (respond : Nat → ModelResponse) :
    ∀ fuel iteration : Nat,
      (generate_response_loop respond iteration fuel).2 ≤ fuel := by
  intro fuel
  induction fuel with
  | zero => intro iteration; simp [generate_response_loop]
  | succ n ih =>
    intro iteration
    cases h : respond (iteration + 1) with
    | final content => simp [generate_response_loop, h]
    | toolCalls names =>
      simp [generate_response_loop, h]
      exact ih (iteration + 1)

lemma generate_loop_all_tools (respond : Nat → ModelResponse)
    (h : ∀ i : Nat, (respond i).hasToolCalls = true) :
    ∀ fuel iteration : Nat,
      generate_response_loop respond iteration fuel = (fallback_response, fuel) := by
  intro fuel
  induction fuel with
  | zero => intro iteration; rfl
  | succ n ih =>
    intro iteration
    cases hr : respond (iteration + 1) with
    | final content =>
      have := h (iteration + 1)
      rw [hr] at this
      simp [ModelResponse.hasToolCalls] at this
    | toolCalls names =>
      simp [generate_response_loop, hr, ih (iteration + 1)]

/-- C9 (confirmed): a user turn makes at most 5 model calls, and when every
model response requests further tool calls, the loop stops after the 5th
iteration and _generate_response yields the fixed fallback text. -/
theorem llm_tool_loop_bounded (respond : Nat → ModelResponse) :
    (generate_response respond).2 ≤ max_tool_iterations ∧
    ((∀ i : Nat, (respond i).hasToolCalls = true) →
      generate_response respond = (fallback_response, max_tool_iterations)) :=
  ⟨generate_loop_count_le respond max_tool_iterations 0,
   fun h => generate_loop_all_tools respond h max_tool_iterations 0⟩

/-- Witness for llm_tool_loop_bounded: a model that asks for the
get_weather tool on every iteration. -/
theorem llm_tool_loop_bounded_witness :
    generate_response (fun _ => ModelResponse.toolCalls ["get_weather"]) =
      (fallback_response, max_tool_iterations) ∧
    (generate_response (fun _ => ModelResponse.toolCalls ["get_weather"])).2 ≤
      max_tool_iterations :=
  ⟨(llm_tool_loop_bounded (fun _ => ModelResponse.toolCalls ["get_weather"])).2
      (fun _ => rfl),
   (llm_tool_loop_bounded (fun _ => ModelResponse.toolCalls ["get_weather"])).1⟩
